import Mathlib

/-!
Shallow embedding of the display swapchain of the Vulkan WSI layer
(src/wsi/display/swapchain.cpp) together with proofs about image status
tracking, presentation, destruction and buffer allocation.
-/

set_option maxRecDepth 4096

namespace WsiDisplay

/-- Vulkan result codes used by the display swapchain paths that we model. -/
inductive VkRes
  | success
  | errorOutOfHostMemory
  | errorFormatNotSupported
  | errorInitFailed
  | errorSurfaceLost
  deriving DecidableEq, Repr

/-- Image lifecycle status of a swapchain image slot, as in the base
swapchain data model (`INVALID`, `FREE`, `ACQUIRED`, `PRESENTED`). -/
inductive ImageStatus
  | invalid
  | free
  | acquired
  | presented
  deriving DecidableEq, Repr

/-! ## Model of `swapchain::destroy_image` (swapchain.cpp lines 637-672)

The function is modelled as a state transformer on one image slot that
also emits the ordered trace of its externally visible actions: taking and
releasing the image-status lock, destroying the Vulkan (GPU) image,
marking the slot `INVALID`, removing the kernel framebuffer
(`drmModeRmFB`) and freeing the backend image data. -/

/-- Externally visible actions of `destroy_image`, in the order the code
performs them. -/
inductive DestroyEvent
  | lockAcquire
  | destroyGpuImage
  | markInvalid
  | lockRelease
  | rmFB
  | freeData
  deriving DecidableEq, Repr

/-- Sentinel framebuffer id: `std::numeric_limits<uint32_t>::max()`. -/
def fbIdSentinel : Nat := 2 ^ 32 - 1

/-- One swapchain image slot as seen by `destroy_image`: its status, whether
the `VkImage` handle is non-null, and the backend `display_image_data`
pointer (`none` when null), carrying the stored kernel framebuffer id. -/
structure ImageSlot where
  status : ImageStatus
  hasVkImage : Bool
  backendData : Option Nat
  deriving DecidableEq, Repr

/-- Model of `swapchain::destroy_image`. Faithful to the source order:
under the image-status lock, a non-`INVALID` image first has its GPU image
destroyed (when the handle is non-null) and is then marked `INVALID`; the
lock is released; afterwards, when the backend data pointer is non-null and
the display singleton is available, the kernel framebuffer is removed when
the stored id differs from the sentinel and the backend data is freed.
When the display singleton is unavailable the function returns early,
leaving the backend data in place. -/
def destroyImage (displayAvailable : Bool) (img : ImageSlot) : ImageSlot × List DestroyEvent :=
  let step1 :=
    if img.status ≠ ImageStatus.invalid then
      ({ img with hasVkImage := false, status := ImageStatus.invalid },
        (if img.hasVkImage then [DestroyEvent.destroyGpuImage] else []) ++ [DestroyEvent.markInvalid])
    else (img, [])
  let img1 := step1.1
  let evLocked := DestroyEvent.lockAcquire :: step1.2 ++ [DestroyEvent.lockRelease]
  match img1.backendData with
  | none => (img1, evLocked)
  | some fb =>
    if displayAvailable then
      ({ img1 with backendData := none },
        evLocked ++ (if fb ≠ fbIdSentinel then [DestroyEvent.rmFB] else []) ++ [DestroyEvent.freeData])
    else (img1, evLocked)

/-- Position of the first occurrence of an event in a destroy trace. -/
def eventIdx (t : List DestroyEvent) (e : DestroyEvent) : Nat := t.indexOf e

/-- Ordering asserted by the claim about `destroy_image`: the `INVALID`
mark happens first, then the lock release, and only then the GPU-image
destruction (together with the rest of the hardware teardown). -/
def claimedDestroyOrder (t : List DestroyEvent) : Prop :=
  DestroyEvent.markInvalid ∈ t ∧ DestroyEvent.lockRelease ∈ t ∧
  DestroyEvent.destroyGpuImage ∈ t ∧
  eventIdx t DestroyEvent.markInvalid < eventIdx t DestroyEvent.lockRelease ∧
  eventIdx t DestroyEvent.lockRelease < eventIdx t DestroyEvent.destroyGpuImage

instance (t : List DestroyEvent) : Decidable (claimedDestroyOrder t) := by
  unfold claimedDestroyOrder; infer_instance


/-- C2: the claimed order (mark `INVALID`, release the lock, then destroy
the GPU image) is false on the code: on a `FREE` image with a live GPU
image handle and backend data, `destroy_image` destroys the GPU image
before the `INVALID` mark and before the lock release. -/
theorem C2_counterexample :
    ¬ claimedDestroyOrder (destroyImage true ⟨ImageStatus.free, true, some 5⟩).2 := by
  decide

/-- C2 (amended): for every `destroy_image` call on an image whose status is
not `INVALID`, the `INVALID` mark happens before the lock release, the
GPU-image destruction (when it happens) happens before the `INVALID` mark
(hence under the lock, not after its release), and the kernel framebuffer
removal and the backend-data free happen only after the lock release. -/
theorem C2_amended_destroy_order (d : Bool) (img : ImageSlot)
    (h : img.status ≠ ImageStatus.invalid) :
    DestroyEvent.markInvalid ∈ (destroyImage d img).2 ∧
    DestroyEvent.lockRelease ∈ (destroyImage d img).2 ∧
    eventIdx (destroyImage d img).2 DestroyEvent.markInvalid <
      eventIdx (destroyImage d img).2 DestroyEvent.lockRelease ∧
    (DestroyEvent.destroyGpuImage ∈ (destroyImage d img).2 →
      eventIdx (destroyImage d img).2 DestroyEvent.destroyGpuImage <
        eventIdx (destroyImage d img).2 DestroyEvent.markInvalid) ∧
    (DestroyEvent.rmFB ∈ (destroyImage d img).2 →
      eventIdx (destroyImage d img).2 DestroyEvent.lockRelease <
        eventIdx (destroyImage d img).2 DestroyEvent.rmFB) ∧
    (DestroyEvent.freeData ∈ (destroyImage d img).2 →
      eventIdx (destroyImage d img).2 DestroyEvent.lockRelease <
        eventIdx (destroyImage d img).2 DestroyEvent.freeData) := by
  obtain ⟨st, hv, bd⟩ := img
  cases st
  case invalid => exact absurd rfl h
  all_goals
    cases hv <;> rcases bd with _ | fb <;> cases d <;>
      first
        | decide
        | (rcases eq_or_ne fb fbIdSentinel with hfb | hfb
           · subst hfb; decide
           · simp [destroyImage, hfb, eventIdx])

/-- C5: the claim that calling `destroy_image` on an image already in
status `INVALID` is a no-op is false on the code: on an `INVALID` image
whose backend data pointer is still non-null, `destroy_image` frees the
backend data (and removes the kernel framebuffer), changing the slot. -/
theorem C5_counterexample :
    (destroyImage true ⟨ImageStatus.invalid, false, some 5⟩).1 ≠
      ⟨ImageStatus.invalid, false, some 5⟩ := by
  decide

/-- C5 (amended): when the display singleton is available, `destroy_image`
always leaves the slot without backend data (hence no stored framebuffer
id), and removes the kernel framebuffer exactly when backend data was
present with an id differing from the sentinel; a `destroy_image` call on
an image that is `INVALID` with null backend data is a no-op; consequently
`destroy_image` is idempotent: a second call, with any display
availability, on the result of a completed first call changes nothing. -/
theorem C5_amended_idempotent (img : ImageSlot) (d2 : Bool) :
    (destroyImage true img).1.backendData = none ∧
    (DestroyEvent.rmFB ∈ (destroyImage true img).2 ↔
      ∃ fb, img.backendData = some fb ∧ fb ≠ fbIdSentinel) ∧
    (img.status = ImageStatus.invalid → img.backendData = none →
      destroyImage d2 img = (img, [DestroyEvent.lockAcquire, DestroyEvent.lockRelease])) ∧
    destroyImage d2 (destroyImage true img).1 =
      ((destroyImage true img).1, [DestroyEvent.lockAcquire, DestroyEvent.lockRelease]) := by
  obtain ⟨st, hv, bd⟩ := img
  cases st <;> cases hv <;> cases d2 <;> rcases bd with _ | fb <;>
    first
      | decide
      | (rcases eq_or_ne fb fbIdSentinel with hfb | hfb
         · subst hfb; decide
         · simp [destroyImage, hfb])

/-- C10: when the display singleton is unavailable and the backend data
pointer is non-null, `destroy_image` returns early: the kernel framebuffer
is not removed, the backend data is not freed and stays non-null, and the
only changes are the GPU-image destruction and the `INVALID` mark done
beforehand (no change at all when the image was already `INVALID`). -/
theorem C10_no_display_early_return (img : ImageSlot) (fb : Nat)
    (h : img.backendData = some fb) :
    (destroyImage false img).1.backendData = some fb ∧
    DestroyEvent.rmFB ∉ (destroyImage false img).2 ∧
    DestroyEvent.freeData ∉ (destroyImage false img).2 ∧
    (img.status ≠ ImageStatus.invalid →
      (destroyImage false img).1 =
        { img with status := ImageStatus.invalid, hasVkImage := false }) ∧
    (img.status = ImageStatus.invalid → (destroyImage false img).1 = img) := by
  obtain ⟨st, hv, bd⟩ := img
  simp only [ImageSlot.mk.injEq] at h ⊢
  subst_vars
  cases st <;> cases hv <;> simp [destroyImage]


/-! ## Model of `swapchain::present_image` (swapchain.cpp lines 508-622)

The page-flip wait loop (lines 556-588) is driven by the sequence of
outcomes of the `select()` call; we model that sequence as an input trace.
The completion callback `page_flip_event` (lines 71-79) sets a boolean
through the user-data pointer; dispatching a ready event may or may not
invoke it, which the `ready` outcome records. -/

/-- Outcome of one `select()` call in the page-flip wait loop:
a failure with `errno` in `{EINTR, EAGAIN}` (retry class), a failure with
any other `errno` (fatal class), a timeout (`select()` returned 0), or a
ready display-device fd whose dispatched event sets the completion boolean
exactly when `setsDone` is true. -/
inductive SelectOutcome
  | retryErr
  | fatalErr
  | timeout
  | ready (setsDone : Bool)
  deriving DecidableEq, Repr

/-- Way the page-flip wait loop ended: `normal` when the do-while condition
became false, `fatal` when the loop was left through the `break` on a
fatal `select()` error, and `stillWaiting` when the modelled outcome trace
was exhausted with the loop condition still true (the real loop would
issue another `select()`). -/
inductive LoopExit
  | normal
  | fatal
  | stillWaiting
  deriving DecidableEq, Repr

/-- Model of the do-while page-flip event pump: consume `select()` outcomes
one per iteration, starting from completion flag `done`. A retry-class
error or a timeout always causes another iteration (the loop condition is
true whenever `drm_res == -1` with retry `errno`, or `drm_res == 0`); a
fatal error sets the error state and leaves through `break`; a ready fd
dispatches the event, after which the loop continues exactly when the
completion boolean is still unset. Returns how the loop ended together
with the final value of the completion boolean. -/
def runFlipWait : List SelectOutcome → Bool → LoopExit × Bool
  | [], done => (LoopExit.stillWaiting, done)
  | o :: rest, done =>
    match o with
    | SelectOutcome.retryErr => runFlipWait rest done
    | SelectOutcome.fatalErr => (LoopExit.fatal, done)
    | SelectOutcome.timeout => runFlipWait rest done
    | SelectOutcome.ready b =>
      let done1 := done || b
      if done1 then (LoopExit.normal, done1) else runFlipWait rest done1

/-- Scan of the image array for the slot currently marked `PRESENTED`
(swapchain.cpp lines 592-605), returning the first matching index. -/
def findPresented : List ImageStatus → Option Nat
  | [] => none
  | st :: rest =>
    if st = ImageStatus.presented then some 0
    else (findPresented rest).map (· + 1)

/-- Status update done at the end of `present_image` (lines 591-619): scan
for the currently presented slot (only after the first present), mark the
pending image `PRESENTED`, then release the previously presented slot.
Modelled from the spec: `unpresent_image` lives in the base class, which is
not part of the modelled sources; per the spec it releases the previous
image back toward `FREE` through the lifecycle manager's release path. -/
def presentTransition (sts : List ImageStatus) (first : Bool) (idx : Nat) : List ImageStatus :=
  let pidx := if first then none else findPresented sts
  let sts1 := sts.set idx ImageStatus.presented
  match pidx with
  | some i => sts1.set i ImageStatus.free
  | none => sts1

/-- Environment of one `present_image` call: availability of the display
singleton, success of the `drmModeSetCrtc` and `drmModePageFlip` ioctls,
and the trace of `select()` outcomes feeding the wait loop. -/
structure PresentEnv where
  displayAvailable : Bool
  modeSetOk : Bool
  pageFlipOk : Bool
  selectTrace : List SelectOutcome
  deriving DecidableEq, Repr

/-- Swapchain state relevant to presentation: the image status array, the
first-present flag and the sticky error state. Modelled from the spec:
`m_first_present` and `set_error_state` belong to the base class, which is
not part of the modelled sources; per the spec the scheduler state moves
from never-presented to steady after a successful first present, and a
hardware failure sets a sticky lost state. -/
structure SwapState where
  statuses : List ImageStatus
  firstPresent : Bool
  errorState : Option VkRes
  deriving DecidableEq, Repr

/-- Model of `swapchain::present_image`. Faithful to the source order: an
unavailable display sets the error state and returns; on the first present
a failed mode-set ioctl sets the error state and returns before any status
change; in steady state a failed page-flip ioctl does the same; otherwise
the wait loop runs, and both its normal exit and its fatal-select `break`
fall through to the status update (fatal additionally setting the error
state before the break). -/
def presentImage (env : PresentEnv) (idx : Nat) (s : SwapState) : SwapState :=
  if env.displayAvailable = false then { s with errorState := some VkRes.errorSurfaceLost }
  else if s.firstPresent then
    if env.modeSetOk = false then { s with errorState := some VkRes.errorSurfaceLost }
    else { s with statuses := presentTransition s.statuses true idx, firstPresent := false }
  else if env.pageFlipOk = false then { s with errorState := some VkRes.errorSurfaceLost }
  else
    match runFlipWait env.selectTrace false with
    | (LoopExit.stillWaiting, _) => s
    | (LoopExit.fatal, _) =>
      { s with errorState := some VkRes.errorSurfaceLost,
               statuses := presentTransition s.statuses false idx }
    | (LoopExit.normal, _) => { s with statuses := presentTransition s.statuses false idx }

/-- Statement of the claim about the wait loop: every terminating run of
the pump leaves the completion boolean set. -/
def flipLoopClaim : Prop :=
  ∀ t : List SelectOutcome,
    (runFlipWait t false).1 ≠ LoopExit.stillWaiting → (runFlipWait t false).2 = true

/-- C3: the claim is false on the code: when `select()` fails with an
`errno` other than `EINTR`/`EAGAIN`, the loop is left through `break` with
the completion boolean still unset. -/
theorem C3_counterexample : ¬ flipLoopClaim := by
  intro hclaim
  have h := hclaim [SelectOutcome.fatalErr] (by decide)
  exact absurd h (by decide)

/-- C3 (amended): the pump loop exits normally only with the completion
boolean set; a retry-class `select()` error or a timeout causes another
iteration without reissuing the page flip (the pump just continues on the
rest of the trace); a fatal `select()` error terminates the loop at once,
leaving the completion boolean as it was, possibly unset. -/
theorem C3_amended_flip_loop (t : List SelectOutcome) (d0 : Bool) :
    ((runFlipWait t d0).1 = LoopExit.normal → (runFlipWait t d0).2 = true) ∧
    runFlipWait (SelectOutcome.retryErr :: t) d0 = runFlipWait t d0 ∧
    runFlipWait (SelectOutcome.timeout :: t) d0 = runFlipWait t d0 ∧
    runFlipWait (SelectOutcome.fatalErr :: t) d0 = (LoopExit.fatal, d0) := by
  refine ⟨?_, rfl, rfl, rfl⟩
  induction t generalizing d0 with
  | nil => intro h; exact absurd h (by simp [runFlipWait])
  | cons o rest ih =>
    intro h
    match o with
    | SelectOutcome.retryErr => exact ih d0 h
    | SelectOutcome.fatalErr => exact absurd h (by simp [runFlipWait])
    | SelectOutcome.timeout => exact ih d0 h
    | SelectOutcome.ready b =>
      by_cases hd : (d0 || b) = true
      · simp only [runFlipWait, hd, if_true]
      · simp only [runFlipWait, hd, if_false] at h ⊢
        exact ih _ h

/-- C3 witness: a trace whose single event dispatches the completion
callback makes the loop exit normally with the boolean set. -/
theorem C3_amended_flip_loop_witness :
    (runFlipWait [SelectOutcome.ready true] false).1 = LoopExit.normal ∧
    (runFlipWait [SelectOutcome.ready true] false).2 = true :=
  ⟨by decide, (C3_amended_flip_loop [SelectOutcome.ready true] false).1 (by decide)⟩

/-- C4: if the mode-set ioctl (on first present) or the page-flip ioctl (in
steady state) fails, `present_image` sets the sticky lost state
(`VK_ERROR_SURFACE_LOST_KHR`) and returns with no image status changed and
the first-present flag untouched. -/
theorem C4_ioctl_failure_no_status_change (env : PresentEnv) (idx : Nat) (s : SwapState)
    (hd : env.displayAvailable = true)
    (hfail : (s.firstPresent = true ∧ env.modeSetOk = false) ∨
      (s.firstPresent = false ∧ env.pageFlipOk = false)) :
    presentImage env idx s = { s with errorState := some VkRes.errorSurfaceLost } := by
  rcases hfail with ⟨hf, hm⟩ | ⟨hf, hp⟩
  · simp [presentImage, hd, hf, hm]
  · simp [presentImage, hd, hf, hp]

/-- C4 witness: a failing page flip in steady state on a two-image
swapchain sets the lost state and leaves both statuses unchanged. -/
theorem C4_ioctl_failure_witness :
    presentImage ⟨true, true, false, []⟩ 1
        ⟨[ImageStatus.presented, ImageStatus.acquired], false, none⟩ =
      ⟨[ImageStatus.presented, ImageStatus.acquired], false, some VkRes.errorSurfaceLost⟩ :=
  C4_ioctl_failure_no_status_change ⟨true, true, false, []⟩ 1
    ⟨[ImageStatus.presented, ImageStatus.acquired], false, none⟩ rfl (Or.inr ⟨rfl, rfl⟩)

/-- C9: when, after a successful page-flip request, the wait loop ends on a
fatal `select()` error, `present_image` sets the lost state but still falls
through to the status update: the pending image is marked `PRESENTED` and
the previously presented image is released — unlike the mode-set and
page-flip ioctl failure paths, the status changes are not suppressed. -/
theorem C9_fatal_select_still_updates (env : PresentEnv) (idx : Nat) (s : SwapState)
    (hd : env.displayAvailable = true) (hf : s.firstPresent = false)
    (hp : env.pageFlipOk = true)
    (hfat : (runFlipWait env.selectTrace false).1 = LoopExit.fatal) :
    presentImage env idx s =
      { s with errorState := some VkRes.errorSurfaceLost,
               statuses := presentTransition s.statuses false idx } := by
  rcases hrw : runFlipWait env.selectTrace false with ⟨exit, dfin⟩
  rw [hrw] at hfat
  simp only at hfat
  subst hfat
  simp [presentImage, hd, hf, hp, hrw]

/-- C9 witness: on a two-image swapchain in steady state, a fatal
`select()` error still marks image 1 `PRESENTED`, releases image 0 and sets
the lost state. -/
theorem C9_fatal_select_witness :
    presentImage ⟨true, true, true, [SelectOutcome.fatalErr]⟩ 1
        ⟨[ImageStatus.presented, ImageStatus.acquired], false, none⟩ =
      ⟨[ImageStatus.free, ImageStatus.presented], false, some VkRes.errorSurfaceLost⟩ :=
  (C9_fatal_select_still_updates ⟨true, true, true, [SelectOutcome.fatalErr]⟩ 1
    ⟨[ImageStatus.presented, ImageStatus.acquired], false, none⟩ rfl rfl rfl
    (by decide)).trans (by decide)

/-! ## Presented-image invariant across sequences of successful presents -/

/-- Predicate stating that the image array has exactly one slot with status
`PRESENTED`, namely slot `i`. -/
def presentedExactly (sts : List ImageStatus) (i : Nat) : Prop :=
  ∀ j : Nat, sts[j]? = some ImageStatus.presented ↔ j = i

/-- Success of one `present_image` call, together with the preconditions
the base swapchain guarantees for a presentation request: the index is in
range and the image being presented is not the one currently on screen (an
image must be reacquired, hence released, before it can be presented
again). Success means the display was available, the relevant ioctl
(mode-set on first present, page flip in steady state) succeeded, and in
steady state the wait loop exited normally. -/
def presentOk (env : PresentEnv) (s : SwapState) (idx : Nat) : Bool :=
  env.displayAvailable && decide (idx < s.statuses.length) &&
  decide (s.statuses[idx]? ≠ some ImageStatus.presented) &&
  (if s.firstPresent then env.modeSetOk
   else env.pageFlipOk && decide ((runFlipWait env.selectTrace false).1 = LoopExit.normal))

/-- One presentation request: its environment and the pending image index. -/
structure PresentReq where
  env : PresentEnv
  idx : Nat
  deriving DecidableEq, Repr

/-- Run a sequence of `present_image` calls from a starting state. -/
def presentRun (s : SwapState) (reqs : List PresentReq) : SwapState :=
  reqs.foldl (fun st r => presentImage r.env r.idx st) s

/-- Each request of the sequence is successful in the state it runs in. -/
def seqOk : SwapState → List PresentReq → Bool
  | _, [] => true
  | s, r :: rs => presentOk r.env s r.idx && seqOk (presentImage r.env r.idx s) rs

/-- Freshly created swapchain of `n` images: every slot `FREE`, no present
done yet, no sticky error. -/
def initState (n : Nat) : SwapState :=
  { statuses := List.replicate n ImageStatus.free, firstPresent := true, errorState := none }

/-- Invariant relating the first-present flag to the number of `PRESENTED`
slots: none before the first present, exactly one afterwards. -/
def swapInv (s : SwapState) : Prop :=
  (s.firstPresent = true ∧ ∀ j : Nat, s.statuses[j]? ≠ some ImageStatus.presented) ∨
  (s.firstPresent = false ∧ ∃ i, presentedExactly s.statuses i)

lemma findPresented_of_unique (sts : List ImageStatus) (i0 : Nat)
    (h : presentedExactly sts i0) : findPresented sts = some i0 := by
  induction sts generalizing i0 with
  | nil =>
    have h0 := (h i0).mpr rfl
    simp at h0
  | cons st rest ih =>
    by_cases hst : st = ImageStatus.presented
    · subst hst
      have h0 : (0 : Nat) = i0 := (h 0).mp (by simp)
      simp [findPresented, ← h0]
    · have hi0 : i0 ≠ 0 := by
        intro h0
        subst h0
        have h1 := (h 0).mpr rfl
        simp at h1
        exact hst h1
      obtain ⟨i1, rfl⟩ : ∃ i1, i0 = i1 + 1 := ⟨i0 - 1, by omega⟩
      have hrest : presentedExactly rest i1 := by
        intro j
        have hj := h (j + 1)
        simpa using hj
      simp [findPresented, hst, ih i1 hrest]

lemma presentTransition_first (sts : List ImageStatus) (idx : Nat)
    (hlt : idx < sts.length)
    (hnone : ∀ j : Nat, sts[j]? ≠ some ImageStatus.presented) :
    presentedExactly (presentTransition sts true idx) idx := by
  intro j
  simp only [presentTransition, if_true, List.getElem?_set]
  by_cases hij : idx = j
  · subst hij
    simp [hlt]
  · simp only [hij, if_false]
    exact ⟨fun hc => absurd hc (hnone j), fun hji => absurd hji.symm hij⟩

lemma presentTransition_steady (sts : List ImageStatus) (idx i0 : Nat)
    (hlt : idx < sts.length)
    (hprev : presentedExactly sts i0)
    (hne : sts[idx]? ≠ some ImageStatus.presented) :
    presentedExactly (presentTransition sts false idx) idx := by
  have hi0lt : i0 < sts.length := by
    by_contra hge
    have hnone : sts[i0]? = none := List.getElem?_eq_none (by omega)
    have h2 := (hprev i0).mpr rfl
    rw [hnone] at h2
    exact Option.noConfusion h2
  have hne0 : idx ≠ i0 := fun he => hne (he ▸ (hprev idx).mpr (he ▸ rfl))
  have hfind : findPresented sts = some i0 := findPresented_of_unique sts i0 hprev
  intro j
  simp only [presentTransition, hfind, Bool.false_eq_true, if_false, List.getElem?_set]
  by_cases hj0 : i0 = j
  · subst hj0
    simp only [List.length_set, hi0lt, if_true, if_pos rfl]
    constructor
    · intro hc
      exact absurd hc (by simp)
    · intro hii
      exact absurd hii.symm hne0
  · simp only [hj0, if_false]
    by_cases hji : idx = j
    · subst hji
      simp [hlt]
    · simp only [hji, if_false]
      rw [hprev j]
      exact ⟨fun hc => absurd hc.symm hj0, fun hc => absurd hc.symm hji⟩

lemma presentImage_success (env : PresentEnv) (idx : Nat) (s : SwapState)
    (hinv : swapInv s) (hok : presentOk env s idx = true) :
    presentedExactly (presentImage env idx s).statuses idx ∧
      (presentImage env idx s).firstPresent = false := by
  simp only [presentOk, Bool.and_eq_true, decide_eq_true_eq] at hok
  obtain ⟨⟨⟨hd, hlt⟩, hne⟩, hrest⟩ := hok
  by_cases hfp : s.firstPresent = true
  · have hms : env.modeSetOk = true := by
      rw [if_pos hfp] at hrest
      exact hrest
    have hnop : ∀ j : Nat, s.statuses[j]? ≠ some ImageStatus.presented := by
      rcases hinv with ⟨_, hn⟩ | ⟨hf, _⟩
      · exact hn
      · rw [hfp] at hf
        exact absurd hf (by simp)
    have h1 : presentImage env idx s =
        { s with statuses := presentTransition s.statuses true idx, firstPresent := false } := by
      simp [presentImage, hd, hfp, hms]
    rw [h1]
    exact ⟨presentTransition_first s.statuses idx hlt hnop, rfl⟩
  · have hfp2 : s.firstPresent = false := by
      revert hfp
      cases s.firstPresent <;> simp
    rw [if_neg hfp] at hrest
    simp only [Bool.and_eq_true, decide_eq_true_eq] at hrest
    obtain ⟨hpf, hnorm⟩ := hrest
    obtain ⟨i0, hprev⟩ : ∃ i, presentedExactly s.statuses i := by
      rcases hinv with ⟨hf, _⟩ | ⟨_, hi⟩
      · rw [hfp2] at hf
        exact absurd hf (by simp)
      · exact hi
    rcases hrw : runFlipWait env.selectTrace false with ⟨exit, dfin⟩
    rw [hrw] at hnorm
    simp only at hnorm
    subst hnorm
    have h1 : presentImage env idx s =
        { s with statuses := presentTransition s.statuses false idx } := by
      simp [presentImage, hd, hfp2, hpf, hrw]
    rw [h1]
    exact ⟨presentTransition_steady s.statuses idx i0 hlt hprev hne, hfp2⟩

lemma presentRun_take_spec (reqs : List PresentReq) (s : SwapState)
    (hinv : swapInv s) (hseq : seqOk s reqs = true) :
    ∀ k, ∀ hk : k < reqs.length,
      presentedExactly (presentRun s (reqs.take (k + 1))).statuses (reqs.get ⟨k, hk⟩).idx := by
  induction reqs generalizing s with
  | nil =>
    intro k hk
    simp at hk
  | cons r rs ih =>
    simp only [seqOk, Bool.and_eq_true] at hseq
    obtain ⟨hok, hrest⟩ := hseq
    have hstep := presentImage_success r.env r.idx s hinv hok
    intro k hk
    match k with
    | 0 =>
      simpa [presentRun] using hstep.1
    | k + 1 =>
      have hinv2 : swapInv (presentImage r.env r.idx s) := by
        exact Or.inr ⟨hstep.2, r.idx, hstep.1⟩
      have hnext := ih (presentImage r.env r.idx s) hinv2 hrest k (by simpa using hk)
      simpa [presentRun] using hnext

/-- C1: starting from a fresh swapchain, before the first present no image
has status `PRESENTED`, and after each present of any sequence of N >= 1
successful presents exactly one image has status `PRESENTED`, namely the
image just presented — never an image presented earlier. -/
theorem C1_presented_invariant (n : Nat) (reqs : List PresentReq)
    (hseq : seqOk (initState n) reqs = true) :
    (∀ j : Nat, (initState n).statuses[j]? ≠ some ImageStatus.presented) ∧
    ∀ k, ∀ hk : k < reqs.length,
      presentedExactly (presentRun (initState n) (reqs.take (k + 1))).statuses
        (reqs.get ⟨k, hk⟩).idx := by
  constructor
  · intro j
    simp only [initState, List.getElem?_replicate]
    by_cases hj : j < n <;> simp [hj]
  · have hinv : swapInv (initState n) := by
      refine Or.inl ⟨rfl, fun j => ?_⟩
      simp only [initState, List.getElem?_replicate]
      by_cases hj : j < n <;> simp [hj]
    exact presentRun_take_spec reqs (initState n) hinv hseq

/-- C1 witness: on a fresh two-image swapchain, a successful first present
of image 0 followed by a successful steady-state present of image 1 leaves
exactly image 1 with status `PRESENTED`. -/
theorem C1_presented_invariant_witness :
    seqOk (initState 2)
        [⟨⟨true, true, true, []⟩, 0⟩, ⟨⟨true, true, true, [SelectOutcome.ready true]⟩, 1⟩] = true ∧
    presentedExactly
      (presentRun (initState 2)
        (List.take 2
          [⟨⟨true, true, true, []⟩, 0⟩,
           ⟨⟨true, true, true, [SelectOutcome.ready true]⟩, 1⟩])).statuses 1 :=
  ⟨by decide,
    (C1_presented_invariant 2
        [⟨⟨true, true, true, []⟩, 0⟩, ⟨⟨true, true, true, [SelectOutcome.ready true]⟩, 1⟩]
        (by decide)).2 1 (by decide)⟩

/-! ## Model of `swapchain::allocate_wsialloc` (swapchain.cpp lines 254-334)
and of the format negotiation and first-image creation paths
(`get_surface_compatible_formats`, lines 136-252, and
`create_swapchain_image`, lines 455-506). -/

/-- Maximum number of planes of a shared buffer
(`WSIALLOC_MAX_PLANES` = `util::MAX_PLANES` = 4). -/
def wsiallocMaxPlanes : Nat := 4

/-- Modelled from the spec: result codes of the buffer allocator library
(`wsialloc`), whose implementation is not among the modelled sources. The
spec distinguishes a format-unsupported failure from generic allocation
failures; `noResource` and `invalidParams` stand for the generic ones. -/
inductive WsiallocError
  | errNone
  | notSupported
  | noResource
  | invalidParams
  deriving DecidableEq, Repr

/-- Allocation result reported by the buffer allocator: chosen
format+modifier, the per-plane buffer file descriptors (the array of
`WSIALLOC_MAX_PLANES` entries, pre-filled with -1 before the call, lines
291-294), and the reported disjoint flag. -/
structure WsiallocAllocResult where
  fourcc : Nat
  modifier : Nat
  bufferFds : List Int
  isDisjoint : Bool
  deriving DecidableEq, Repr

/-- One outcome of a `wsialloc_alloc` call: its error code, the allocation
result, and the plane count of the chosen format as reported by
`util::drm::drm_fourcc_format_get_num_planes`. -/
structure AllocOutcome where
  err : WsiallocError
  result : WsiallocAllocResult
  numPlanes : Nat
  deriving DecidableEq, Repr

/-- Deduplication loop of `allocate_wsialloc` (lines 315-325): for each
plane index below the plane count, the plane is counted as a distinct
memory object exactly when its buffer fd does not occur again anywhere
later in the full fd array. -/
def countMemoryPlanes : List Int → Nat → Nat
  | _, 0 => 0
  | [], _ + 1 => 0
  | fd :: rest, np + 1 =>
    (if fd ∈ rest then 0 else 1) + countMemoryPlanes rest np

/-- Number of positions of a list holding the last occurrence of their
value. -/
def countLastOccurrences : List Int → Nat
  | [] => 0
  | fd :: rest => (if fd ∈ rest then 0 else 1) + countLastOccurrences rest

lemma countLastOccurrences_eq_dedup_length (l : List Int) :
    countLastOccurrences l = l.dedup.length := by
  induction l with
  | nil => rfl
  | cons a rest ih =>
    by_cases ha : a ∈ rest
    · rw [List.dedup_cons_of_mem ha]
      simp [countLastOccurrences, ha, ih]
    · rw [List.dedup_cons_of_not_mem ha]
      simp [countLastOccurrences, ha, ih, Nat.add_comm]

lemma countMemoryPlanes_eq_dedup (l : List Int) (np : Nat)
    (hlen : np ≤ l.length)
    (hpos : ∀ fd ∈ l.take np, (0 : Int) ≤ fd)
    (hneg : ∀ fd ∈ l.drop np, fd = -1) :
    countMemoryPlanes l np = (l.take np).dedup.length := by
  rw [← countLastOccurrences_eq_dedup_length]
  induction np generalizing l with
  | zero => simp [countMemoryPlanes, countLastOccurrences]
  | succ np ih =>
    match l with
    | [] => simp at hlen
    | a :: rest =>
      have hhead : (0 : Int) ≤ a := hpos a (by simp)
      have hmem : (a ∈ rest) ↔ (a ∈ rest.take np) := by
        constructor
        · intro hmem2
          rcases (List.mem_append.mp (by rw [List.take_append_drop np rest]; exact hmem2)) with
            hin | hin
          · exact hin
          · exact absurd (hneg a (by simpa using hin)) (by omega)
        · intro hmem2
          exact (List.take_sublist np rest).mem hmem2
      have hrec := ih rest (by simpa using hlen)
        (fun fd hfd => hpos fd (by simpa using Or.inr hfd))
        (fun fd hfd => hneg fd (by simpa using hfd))
      simp only [countMemoryPlanes, List.take_succ_cons, countLastOccurrences, hrec]
      by_cases hm : a ∈ rest
      · simp [hm, hmem.mp hm]
      · have hmt : a ∉ rest.take np := fun hc => hm (hmem.mpr hc)
        simp [hm, hmt]

/-- Modelled from the spec: contract of the buffer allocator library, whose
implementation is not among the modelled sources. A successful allocation
fills the first plane-count entries of the fd array with valid (hence
non-negative) descriptors, leaves the remaining pre-initialized entries at
-1, and reports the disjoint flag exactly when more than one distinct
memory object backs the planes — per the spec the post-allocation
deduplication is a reconciliation check, not an independent source of
truth. -/
def wsiallocWellFormed (o : AllocOutcome) : Prop :=
  o.err = WsiallocError.errNone ∧
  o.result.bufferFds.length = wsiallocMaxPlanes ∧
  o.numPlanes ≤ wsiallocMaxPlanes ∧
  (∀ fd ∈ o.result.bufferFds.take o.numPlanes, (0 : Int) ≤ fd) ∧
  (∀ fd ∈ o.result.bufferFds.drop o.numPlanes, fd = -1) ∧
  o.result.isDisjoint = decide (1 < (o.result.bufferFds.take o.numPlanes).dedup.length)

/-- Result-code mapping of `allocate_wsialloc` (lines 295-304): the
allocator error `WSIALLOC_ERROR_NOT_SUPPORTED` maps to
`VK_ERROR_FORMAT_NOT_SUPPORTED`, every other allocator failure to
`VK_ERROR_OUT_OF_HOST_MEMORY`, and success to `VK_SUCCESS`. -/
def allocateWsialloc (o : AllocOutcome) : VkRes :=
  match o.err with
  | WsiallocError.errNone => VkRes.success
  | WsiallocError.notSupported => VkRes.errorFormatNotSupported
  | WsiallocError.noResource => VkRes.errorOutOfHostMemory
  | WsiallocError.invalidParams => VkRes.errorOutOfHostMemory

/-- C6: for a successful, well-formed non-probe allocation, the
deduplication loop computes exactly the number of distinct buffer fds among
the planes, and the reconciliation assertion
`assert(alloc_result.is_disjoint == (num_memory_planes > 1))` holds, so it
never fires. -/
theorem C6_disjoint_reconciliation (o : AllocOutcome) (h : wsiallocWellFormed o) :
    countMemoryPlanes o.result.bufferFds o.numPlanes =
      (o.result.bufferFds.take o.numPlanes).dedup.length ∧
    o.result.isDisjoint = decide (1 < countMemoryPlanes o.result.bufferFds o.numPlanes) := by
  obtain ⟨-, hlen, hnp, hpos, hneg, hdisj⟩ := h
  have heq := countMemoryPlanes_eq_dedup o.result.bufferFds o.numPlanes
    (by rw [hlen]; exact hnp) hpos hneg
  exact ⟨heq, by rw [hdisj, heq]⟩

/-- C6 witness: a two-plane allocation with distinct buffer fds is
disjoint, the loop counts two memory planes, and the assertion holds. -/
theorem C6_disjoint_reconciliation_witness :
    wsiallocWellFormed ⟨WsiallocError.errNone, ⟨842094158, 0, [3, 7, -1, -1], true⟩, 2⟩ ∧
    countMemoryPlanes [3, 7, -1, -1] 2 = 2 ∧
    (true : Bool) = decide (1 < countMemoryPlanes [3, 7, -1, -1] 2) :=
  ⟨⟨rfl, rfl, by decide, by decide, by decide, by decide⟩,
    by decide,
    (C6_disjoint_reconciliation ⟨WsiallocError.errNone, ⟨842094158, 0, [3, 7, -1, -1], true⟩, 2⟩
      ⟨rfl, rfl, by decide, by decide, by decide, by decide⟩).2⟩

/-- One candidate format+modifier examined by
`get_surface_compatible_formats`: one entry of the DRM format properties
reported for the requested image format, together with the outcome of each
check the loop applies to it — display support, success of the
GPU format-capability query, the extent/mip/array/sample-count limits, and
the exportable/importable external-memory feature bits. -/
structure FormatCandidate where
  displaySupported : Bool
  gpuQueryOk : Bool
  limitsOk : Bool
  exportable : Bool
  importable : Bool
  fourcc : Nat
  modifier : Nat
  disjointTiling : Bool
  deriving DecidableEq, Repr

/-- One importable allocator format (`wsialloc_format`): fourcc, modifier
and the non-disjoint flag, set when the modifier's tiling features lack
`VK_FORMAT_FEATURE_DISJOINT_BIT` (lines 241-243). -/
structure WsiFmt where
  fourcc : Nat
  modifier : Nat
  nonDisjointFlag : Bool
  deriving DecidableEq, Repr

/-- A candidate passes into the importable list exactly when it survives
the display-support, GPU-query and limit checks and has the importable
external-memory feature. -/
def candidateImportable (c : FormatCandidate) : Bool :=
  c.displaySupported && c.gpuQueryOk && c.limitsOk && c.importable

/-- A candidate passes into the exportable-modifier list exactly when it
survives the same checks and has the exportable external-memory feature. -/
def candidateExportable (c : FormatCandidate) : Bool :=
  c.displaySupported && c.gpuQueryOk && c.limitsOk && c.exportable

/-- Loop body of `get_surface_compatible_formats` (lines 151-249): walk the
candidates in order, collecting importable formats and exportable
modifiers. Growth of the result lists is modelled as always succeeding;
the out-of-host-memory return on a failed `try_push_back` is therefore not
represented (on the empty-intersection path nothing is ever pushed). -/
def gatherFormats : List FormatCandidate → List WsiFmt × List Nat
  | [] => ([], [])
  | c :: rest =>
    let tail := gatherFormats rest
    ((if candidateImportable c then [⟨c.fourcc, c.modifier, !c.disjointTiling⟩] else []) ++ tail.1,
      (if candidateExportable c then [c.modifier] else []) ++ tail.2)

/-- Model of `get_surface_compatible_formats` (lines 136-252): an
unavailable display singleton yields `VK_ERROR_OUT_OF_HOST_MEMORY` (lines
144-149); otherwise the candidate loop runs and the function returns
success together with the collected importable and exportable lists. -/
def getSurfaceCompatibleFormats (displayAvailable : Bool)
    (cands : List FormatCandidate) : VkRes × List WsiFmt × List Nat :=
  if displayAvailable = false then (VkRes.errorOutOfHostMemory, [], [])
  else
    let fs := gatherFormats cands
    (VkRes.success, fs.1, fs.2)

/-- Environment of a first-image `create_swapchain_image` call: success of
the backend image-data allocation, the display availability and format
candidates feeding `get_surface_compatible_formats`, the outcome of the
probe `wsialloc_alloc` call, and the result of the final
`vkCreateImage` dispatch. -/
structure CreateEnv where
  imageDataAllocOk : Bool
  displayAvailable : Bool
  candidates : List FormatCandidate
  allocOutcome : AllocOutcome
  createImageResult : VkRes
  deriving DecidableEq, Repr

/-- Model of `create_swapchain_image` for the first image (lines 455-506,
with `m_image_create_info.format == VK_FORMAT_UNDEFINED`): a failed
image-data allocation yields `VK_ERROR_OUT_OF_HOST_MEMORY`; an error from
`get_surface_compatible_formats` is propagated; an empty importable list
yields `VK_ERROR_INITIALIZATION_FAILED`; an error from the probe
`allocate_wsialloc` call is propagated; otherwise the result of
`vkCreateImage` is returned. -/
def createSwapchainImage (env : CreateEnv) : VkRes :=
  if env.imageDataAllocOk = false then VkRes.errorOutOfHostMemory
  else
    match getSurfaceCompatibleFormats env.displayAvailable env.candidates with
    | (VkRes.success, imp, _) =>
      if imp.isEmpty then VkRes.errorInitFailed
      else
        match allocateWsialloc env.allocOutcome with
        | VkRes.success => env.createImageResult
        | e => e
    | (e, _, _) => e

lemma gatherFormats_importable_nil (cands : List FormatCandidate)
    (h : ∀ c ∈ cands, candidateImportable c = false) :
    (gatherFormats cands).1 = [] := by
  induction cands with
  | nil => rfl
  | cons c rest ih =>
    simp only [gatherFormats, h c (by simp), if_false, List.nil_append]
    exact ih fun c2 hc2 => h c2 (by simp [hc2])

/-- C7: `allocate_wsialloc` returns `VK_ERROR_FORMAT_NOT_SUPPORTED` exactly
when the allocator reported its format-unsupported error, and
`VK_ERROR_OUT_OF_HOST_MEMORY` for every other allocator failure; when the
allocator reports format-not-supported for the candidate list, first-image
creation returns the format-not-supported class, not generic
out-of-memory. -/
theorem C7_alloc_error_mapping (o : AllocOutcome) (env : CreateEnv)
    (hok : env.imageDataAllocOk = true) (hd : env.displayAvailable = true)
    (hne : (gatherFormats env.candidates).1 ≠ [])
    (hns : env.allocOutcome.err = WsiallocError.notSupported) :
    (allocateWsialloc o = VkRes.errorFormatNotSupported ↔
      o.err = WsiallocError.notSupported) ∧
    (o.err ≠ WsiallocError.errNone → o.err ≠ WsiallocError.notSupported →
      allocateWsialloc o = VkRes.errorOutOfHostMemory) ∧
    createSwapchainImage env = VkRes.errorFormatNotSupported := by
  refine ⟨?_, ?_, ?_⟩
  · cases herr : o.err <;> simp [allocateWsialloc, herr]
  · intro h1 h2
    cases herr : o.err <;> simp [allocateWsialloc, herr] <;>
      first | exact absurd herr h1 | exact absurd herr h2
  · have himp : (gatherFormats env.candidates).1.isEmpty = false := by
      cases hgf : (gatherFormats env.candidates).1
      · exact absurd hgf hne
      · rfl
    simp [createSwapchainImage, hok, hd, getSurfaceCompatibleFormats, himp,
      allocateWsialloc, hns]

/-- C7 witness: with one importable candidate and an allocator reporting
format-not-supported, image creation returns the format-not-supported
class. -/
theorem C7_alloc_error_mapping_witness :
    (allocateWsialloc
        ⟨WsiallocError.notSupported, ⟨0, 0, [-1, -1, -1, -1], false⟩, 0⟩ =
      VkRes.errorFormatNotSupported) ∧
    createSwapchainImage
        ⟨true, true, [⟨true, true, true, false, true, 842094158, 7, false⟩],
          ⟨WsiallocError.notSupported, ⟨0, 0, [-1, -1, -1, -1], false⟩, 0⟩,
          VkRes.success⟩ =
      VkRes.errorFormatNotSupported := by
  have h := C7_alloc_error_mapping
    ⟨WsiallocError.notSupported, ⟨0, 0, [-1, -1, -1, -1], false⟩, 0⟩
    ⟨true, true, [⟨true, true, true, false, true, 842094158, 7, false⟩],
      ⟨WsiallocError.notSupported, ⟨0, 0, [-1, -1, -1, -1], false⟩, 0⟩,
      VkRes.success⟩
    rfl rfl (by decide) rfl
  exact ⟨h.1.mpr rfl, h.2.2⟩

/-- C8: when no candidate format+modifier is importable by both the GPU
device and the display, `get_surface_compatible_formats` itself returns
success with an empty importable list, and first-image creation then fails
with the initialization-failed / out-of-host-memory class, never with
success. -/
theorem C8_empty_common_formats (env : CreateEnv)
    (hd : env.displayAvailable = true)
    (hempty : ∀ c ∈ env.candidates, candidateImportable c = false) :
    getSurfaceCompatibleFormats env.displayAvailable env.candidates =
      (VkRes.success, [], (gatherFormats env.candidates).2) ∧
    (env.imageDataAllocOk = true → createSwapchainImage env = VkRes.errorInitFailed) ∧
    (env.imageDataAllocOk = false → createSwapchainImage env = VkRes.errorOutOfHostMemory) ∧
    createSwapchainImage env ≠ VkRes.success := by
  have hnil := gatherFormats_importable_nil env.candidates hempty
  have hgsfc : getSurfaceCompatibleFormats env.displayAvailable env.candidates =
      (VkRes.success, [], (gatherFormats env.candidates).2) := by
    simp [getSurfaceCompatibleFormats, hd, hnil]
  refine ⟨hgsfc, ?_, ?_, ?_⟩
  · intro hok
    simp [createSwapchainImage, hok, hgsfc]
  · intro hko
    simp [createSwapchainImage, hko]
  · cases hok : env.imageDataAllocOk
    · simp [createSwapchainImage, hok]
    · simp [createSwapchainImage, hok, hgsfc]

/-- C8 witness: a single candidate rejected by the display leads to an
empty importable list and initialization failure. -/
theorem C8_empty_common_formats_witness :
    getSurfaceCompatibleFormats true [⟨false, true, true, true, true, 842094158, 7, false⟩] =
      (VkRes.success, [], []) ∧
    createSwapchainImage
        ⟨true, true, [⟨false, true, true, true, true, 842094158, 7, false⟩],
          ⟨WsiallocError.errNone, ⟨0, 0, [-1, -1, -1, -1], false⟩, 0⟩, VkRes.success⟩ =
      VkRes.errorInitFailed := by
  have h := C8_empty_common_formats
    ⟨true, true, [⟨false, true, true, true, true, 842094158, 7, false⟩],
      ⟨WsiallocError.errNone, ⟨0, 0, [-1, -1, -1, -1], false⟩, 0⟩, VkRes.success⟩
    rfl (by decide)
  exact ⟨h.1, h.2.1 rfl⟩

/-- C2 witness: on a `FREE` image with a live GPU image and backend data,
the `INVALID` mark precedes the lock release in the destroy trace. -/
theorem C2_amended_destroy_order_witness :
    (⟨ImageStatus.free, true, some 5⟩ : ImageSlot).status ≠ ImageStatus.invalid ∧
    eventIdx (destroyImage true ⟨ImageStatus.free, true, some 5⟩).2 DestroyEvent.markInvalid <
      eventIdx (destroyImage true ⟨ImageStatus.free, true, some 5⟩).2 DestroyEvent.lockRelease :=
  ⟨by decide,
    (C2_amended_destroy_order true ⟨ImageStatus.free, true, some 5⟩ (by decide)).2.2.1⟩

/-- C5 witness: destroying a `FREE` image with backend data leaves no
backend data, and a second destroy call is a no-op. -/
theorem C5_amended_idempotent_witness :
    (destroyImage true ⟨ImageStatus.free, true, some 5⟩).1.backendData = none ∧
    destroyImage false (destroyImage true ⟨ImageStatus.free, true, some 5⟩).1 =
      ((destroyImage true ⟨ImageStatus.free, true, some 5⟩).1,
        [DestroyEvent.lockAcquire, DestroyEvent.lockRelease]) :=
  ⟨(C5_amended_idempotent ⟨ImageStatus.free, true, some 5⟩ false).1,
    (C5_amended_idempotent ⟨ImageStatus.free, true, some 5⟩ false).2.2.2⟩

/-- C10 witness: with the display singleton unavailable, destroying an
`ACQUIRED` image with backend data keeps the data pointer non-null and only
performs the GPU-image destruction and the `INVALID` mark. -/
theorem C10_no_display_early_return_witness :
    (destroyImage false ⟨ImageStatus.acquired, true, some 9⟩).1.backendData = some 9 ∧
    (destroyImage false ⟨ImageStatus.acquired, true, some 9⟩).1 =
      ⟨ImageStatus.invalid, false, some 9⟩ :=
  ⟨(C10_no_display_early_return ⟨ImageStatus.acquired, true, some 9⟩ 9 rfl).1,
    (C10_no_display_early_return ⟨ImageStatus.acquired, true, some 9⟩ 9 rfl).2.2.2.1 (by decide)⟩

end WsiDisplay
